import Mathlib

/-!
Verification development for the SVG Holder backend (Express + MongoDB CRUD API).

The repository's `src/server.js` holds the HTTP boundary: CORS gating, the
request-timeout middleware, the health endpoint, the error-handling middleware,
startup and graceful shutdown. The CRUD routes (`routes/svgs.js`), the database
adapter (`database.js`) and the upload validator are referenced by `server.js`
but their files are not part of the sources; those parts are modelled from the
specification (each such definition is marked `Modelled from the spec:`).
-/

namespace SvgHolder

/-! ## CORS gate (src/server.js, lines 10-32) -/

/-- The fixed allowlist of origins from the cors origin callback in
`src/server.js`. -/
def allowedOrigins : List String :=
  ["https://svgviewer-alpha.vercel.app",
   "http://localhost:3000",
   "http://localhost:5173"]

/-- Outcome of the cors origin callback: `allow` corresponds to
`callback(null, true)`, `block` to `callback(new Error('Not allowed by CORS'))`,
which makes the cors middleware answer the request with an error before any
route handler runs. -/
inductive CorsDecision where
  | allow
  | block
  deriving DecidableEq

/-- The cors origin callback of `src/server.js`: the guard `if (!origin)`
is a JavaScript truthiness check, so both an absent `Origin` header and an
empty-string `Origin` header are allowed; any other origin is allowed exactly
when `allowedOrigins.indexOf(origin) !== -1`, i.e. when it is a member of the
allowlist. -/
def corsOrigin (origin : Option String) : CorsDecision :=
  match origin with
  | none => .allow
  | some o =>
    if o = "" then .allow
    else if allowedOrigins.contains o then .allow else .block

/-! ## Request timeout middleware (src/server.js, lines 50-58) -/

/-- A JSON-ish HTTP response body with a status code, as produced by
`res.status(...).json(...)`. -/
structure SimpleResponse where
  status : Nat
  success : Bool
  message : String
  deriving DecidableEq

/-- The timeout bound, in milliseconds, passed to `req.setTimeout` in
`src/server.js`. -/
def requestTimeoutMs : Nat := 30000

/-- The response sent by the timeout callback installed by the request
timeout middleware in `src/server.js`. -/
def timeoutResponse : SimpleResponse :=
  { status := 408, success := false, message := "Request timeout" }

/-- Shallow model of a request passing through the timeout middleware: if the
request completes within the timeout bound the normal response is sent,
otherwise the timeout callback fires and sends `timeoutResponse`. -/
def handleWithTimeout (completedWithinTimeout : Bool)
    (normal : SimpleResponse) : SimpleResponse :=
  if completedWithinTimeout then normal else timeoutResponse

/-! ## Health endpoint (src/server.js, lines 70-92) -/

/-- The body of the `/api/health` response (the timestamp, uptime and memory
fields carry no logic and are omitted). -/
structure HealthBody where
  success : Bool
  message : String
  database : String
  error : Option String
  deriving DecidableEq

/-- The `/api/health` handler of `src/server.js`: it calls `getDatabase()`
inside a try/catch; the argument is the outcome of that call (`.ok` when a
handle is obtained, `.error msg` when it throws an error with message
`msg`). -/
def healthHandler (db : Except String Unit) : HealthBody :=
  match db with
  | .ok _ =>
      { success := true
        message := "SVG Holder API is running"
        database := "connected"
        error := none }
  | .error msg =>
      { success := false
        message := "SVG Holder API is running but database is disconnected"
        database := "disconnected"
        error := some msg }

/-! ## Error-handling middleware (src/server.js, lines 104-126) -/

/-- A JavaScript error as seen by the error-handling middleware: an optional
`code` property and a `message`. -/
structure JsError where
  code : Option String
  message : String
  deriving DecidableEq

/-- A response from the error-handling middleware: status code plus the JSON
body fields it writes. -/
structure ErrorResponse where
  status : Nat
  success : Bool
  message : String
  error : Option String
  deriving DecidableEq

/-- The error-handling middleware of `src/server.js`: multer size-limit errors
(`code === 'LIMIT_FILE_SIZE'`) map to 400, the file-filter error message
(`'Only SVG files are allowed'`) maps to 400, and everything else maps to 500
with an `error` field that carries `error.message` only when
`process.env.NODE_ENV === 'development'` and the fixed string
`'Something went wrong'` otherwise. -/
def errorHandler (e : JsError) (nodeEnv : Option String) : ErrorResponse :=
  if e.code = some "LIMIT_FILE_SIZE" then
    { status := 400, success := false
      message := "File size too large. Maximum size is 5MB.", error := none }
  else if e.message = "Only SVG files are allowed" then
    { status := 400, success := false
      message := "Only SVG files are allowed", error := none }
  else
    { status := 500, success := false
      message := "Internal server error"
      error := some (if nodeEnv = some "development" then e.message
                     else "Something went wrong") }

/-! ## Startup (src/server.js, lines 137-152) -/

/-- Outcome of `startServer`: either the listener was started (`serving`) or
the process exited with the given code before serving. -/
inductive StartOutcome where
  | serving
  | exited (code : Nat)
  deriving DecidableEq

/-- `startServer` of `src/server.js`: it awaits `connectToDatabase()` and only
then calls `app.listen`; if the connect rejects, the catch block runs
`process.exit(1)` and the listener is never started. The argument is the
outcome of the initial connect. -/
def startServer (connect : Except String Unit) : StartOutcome :=
  match connect with
  | .ok _ => .serving
  | .error _ => .exited 1

/-! ## Upload validator and CRUD service

The files `routes/svgs.js` (upload validator and CRUD handlers) and
`database.js` are imported by `src/server.js` but are not among the sources;
they are modelled from the specification below. -/

/-- A candidate uploaded file as the Upload Validator sees it: declared MIME
type, client-supplied filename, declared byte size, and byte content (kept as a
string; the system treats SVG content as text). -/
structure UploadFile where
  mimetype : String
  originalname : String
  size : Nat
  content : String
  deriving DecidableEq

/-- The UTF-8 byte length of a string, as the sum of the per-character UTF-8
sizes; this is the byte length of the uploaded content as a buffer holds it. -/
def byteLength (s : String) : Nat :=
  (s.toList.map Char.utf8Size).sum

/-- The typed error taxonomy of the specification (section 7). -/
inductive SvgError where
  | ValidationError
  | InvalidFileTypeError
  | FileTooLargeError
  | NotFoundError
  | InvalidIdError
  | StoreError
  deriving DecidableEq

/-- The configured upload size ceiling: 5 MiB. -/
def maxFileSize : Nat := 5 * 1024 * 1024

/-- Whether the second list of characters starts with the first one. -/
def leadsWith : List Char → List Char → Bool
  | [], _ => true
  | _ :: _, [] => false
  | a :: as, b :: bs => a == b && leadsWith as bs

/-- Whether the second list of characters ends with the first one. -/
def trailsWith (suffix l : List Char) : Bool :=
  leadsWith suffix.reverse l.reverse

/-- Whether a candidate file passes the SVG type gate: its declared MIME type
is the SVG image type, or its filename extension is `.svg`. -/
def isSvgType (f : UploadFile) : Bool :=
  f.mimetype == "image/svg+xml" || trailsWith ".svg".toList f.originalname.toList

/-- Modelled from the spec: the Upload Validator (section 4.2, missing file
`routes/svgs.js`). Step 1 rejects with `InvalidFileTypeError` unless the
declared MIME type is an SVG-image type or the filename extension is `.svg`;
step 2 rejects with `FileTooLargeError` if the byte size exceeds the 5 MiB
ceiling; step 3 accepts, passing the content through unchanged. -/
def validateUpload (f : UploadFile) : Except SvgError Unit :=
  if !(isSvgType f) then .error .InvalidFileTypeError
  else if maxFileSize < f.size then .error .FileTooLargeError
  else .ok ()

/-- A persisted Asset Record (section 3). The `id` is assigned by the store on
creation; `fileSize` is derived from the upload, not user-supplied.
Timestamps carry no logic relevant to the claims and are omitted. -/
structure SvgRecord where
  id : Nat
  name : String
  description : String
  content : String
  fileSize : Nat
  originalName : String
  deriving DecidableEq

/-- The document store as the CRUD service sees it: the list of persisted
records in store order, plus the next fresh id. -/
structure Store where
  records : List SvgRecord
  nextId : Nat
  deriving DecidableEq

/-- A store is well-formed when every persisted id is below `nextId`; this is
the store-adapter guarantee that ids are unique and never reused. -/
def Store.WF (s : Store) : Prop :=
  ∀ r ∈ s.records, r.id < s.nextId

/-- Modelled from the spec: the create operation of the CRUD Service
(section 4.3, missing file `routes/svgs.js`). The Upload Validator gates the
file first (the upload middleware runs before the handler body); a missing
file, missing name, empty name or missing description is a
`ValidationError`; on success a new record with a store-generated id is
appended and `fileSize` is set to the byte size of the upload. -/
def createSvg (s : Store) (name description : Option String)
    (file : Option UploadFile) : Except SvgError (SvgRecord × Store) :=
  match file with
  | none => .error .ValidationError
  | some f =>
    match validateUpload f with
    | .error e => .error e
    | .ok _ =>
      match name, description with
      | some n, some d =>
        if n = "" then .error .ValidationError
        else
          let r : SvgRecord :=
            { id := s.nextId, name := n, description := d
              content := f.content, fileSize := f.size
              originalName := f.originalname }
          .ok (r, { records := s.records ++ [r], nextId := s.nextId + 1 })
      | _, _ => .error .ValidationError

/-- Modelled from the spec: the getById operation of the CRUD Service
(section 4.3, missing file `routes/svgs.js`): the record with the matching id,
or `NotFoundError` when absent. -/
def getById (s : Store) (i : Nat) : Except SvgError SvgRecord :=
  match s.records.find? (fun r => r.id == i) with
  | some r => .ok r
  | none => .error .NotFoundError

/-- Whether the needle occurs as a contiguous run inside the haystack. -/
def hasSub (needle : List Char) : List Char → Bool
  | [] => needle.isEmpty
  | c :: rest => leadsWith needle (c :: rest) || hasSub needle rest

/-- ASCII lowercasing of one character, as JavaScript's `toLowerCase` acts on
the ASCII range. -/
def lowerChar (c : Char) : Char :=
  if 65 ≤ c.toNat && c.toNat ≤ 90 then Char.ofNat (c.toNat + 32) else c

/-- Case-insensitive substring containment on strings: both sides are
lowercased and the needle must occur contiguously in the haystack. -/
def containsCI (hay needle : String) : Bool :=
  hasSub (needle.toList.map lowerChar) (hay.toList.map lowerChar)

/-- Modelled from the spec: the search operation of the CRUD Service
(section 4.3, missing file `routes/svgs.js`): a missing or empty query is a
`ValidationError`; otherwise the result keeps, in store order, exactly the
records whose name or description contains the query as a case-insensitive
substring. -/
def searchSvgs (s : Store) (q : Option String) :
    Except SvgError (List SvgRecord) :=
  match q with
  | none => .error .ValidationError
  | some query =>
    if query = "" then .error .ValidationError
    else .ok (s.records.filter
      (fun r => containsCI r.name query || containsCI r.description query))

/-- A concrete two-record store used to exercise the search operation: one
record mentions "icon" in its name and description, the other does not. -/
def sampleStore : Store :=
  { records :=
      [{ id := 0, name := "My Icon", description := "A beautiful icon"
         content := "<svg/>", fileSize := 6, originalName := "icon.svg" },
       { id := 1, name := "Blob", description := "round shape"
         content := "<svg/>", fileSize := 6, originalName := "blob.svg" }]
    nextId := 2 }

/-! ## Graceful shutdown (src/server.js, lines 155-165) -/

/-- Modelled from the spec: `closeDatabaseConnection` of the missing file
`database.js`. The spec says close is safe to call repeatedly and that errors
during a graceful-shutdown close are logged but do not prevent process exit,
so close swallows the underlying driver outcome and never rejects. -/
def closeDatabaseConnection (driverOutcome : Except String Unit) :
    Except String Unit :=
  match driverOutcome with
  | .ok _ => .ok ()
  | .error _ => .ok ()

/-- What a SIGINT/SIGTERM handler run did: whether close was invoked and the
exit code reached, `none` when `process.exit` was never reached because the
awaited close rejected. -/
structure ShutdownTrace where
  closeInvoked : Bool
  exitCode : Option Nat
  deriving DecidableEq

/-- The SIGINT/SIGTERM handlers of `src/server.js`: they await
`closeDatabaseConnection()` and then call `process.exit(0)`; had the awaited
close rejected, the exit call would not be reached. -/
def shutdownHandler (driverOutcome : Except String Unit) : ShutdownTrace :=
  match closeDatabaseConnection driverOutcome with
  | .ok _ => { closeInvoked := true, exitCode := some 0 }
  | .error _ => { closeInvoked := true, exitCode := none }

/-! ## Helper lemmas -/

theorem leadsWith_iff (n : List Char) :
    ∀ l : List Char, leadsWith n l = true ↔ ∃ t, l = n ++ t := by
  induction n with
  | nil =>
    intro l
    simp [leadsWith]
  | cons a as ih =>
    intro l
    cases l with
    | nil =>
      simp [leadsWith]
    | cons b bs =>
      simp only [leadsWith, Bool.and_eq_true, beq_iff_eq, ih bs]
      constructor
      · rintro ⟨rfl, t, rfl⟩
        exact ⟨t, rfl⟩
      · rintro ⟨t, ht⟩
        cases ht
        exact ⟨rfl, t, rfl⟩

theorem hasSub_iff (n : List Char) :
    ∀ l : List Char, hasSub n l = true ↔ ∃ p t, l = p ++ n ++ t := by
  intro l
  induction l with
  | nil =>
    simp only [hasSub, List.isEmpty_iff]
    constructor
    · rintro rfl
      exact ⟨[], [], rfl⟩
    · rintro ⟨p, t, ht⟩
      have := List.append_eq_nil.mp ht.symm
      have := List.append_eq_nil.mp this.1
      exact this.2
  | cons c rest ih =>
    simp only [hasSub, Bool.or_eq_true, leadsWith_iff, ih]
    constructor
    · rintro (⟨t, ht⟩ | ⟨p, t, ht⟩)
      · exact ⟨[], t, by simpa using ht⟩
      · exact ⟨c :: p, t, by simp [ht]⟩
    · rintro ⟨p, t, ht⟩
      cases p with
      | nil =>
        exact Or.inl ⟨t, by simpa using ht⟩
      | cons x p =>
        rcases List.cons_eq_cons.mp (by simpa using ht) with ⟨rfl, hrest⟩
        exact Or.inr ⟨p, t, by simp [hrest]⟩

theorem validateUpload_ok (f : UploadFile) (htype : isSvgType f = true)
    (hsize : f.size ≤ maxFileSize) : validateUpload f = .ok () := by
  simp [validateUpload, htype, Nat.not_lt.mpr hsize]

/-! ## Claim theorems -/

/-- C1: for a valid input (non-empty name, present description, SVG-typed file
within the 5 MiB ceiling, declared size equal to the content's byte length),
create succeeds and getById on the returned id yields a record whose name,
description, content and originalName match the input and whose fileSize is
the byte length of the uploaded content. -/
theorem create_then_getById (s : Store) (hwf : Store.WF s) (n d : String)
    (f : UploadFile) (hn : n ≠ "") (htype : isSvgType f = true)
    (hsize : f.size ≤ maxFileSize) (hbytes : f.size = byteLength f.content) :
    ∃ (r : SvgRecord) (s' : Store),
      createSvg s (some n) (some d) (some f) = .ok (r, s') ∧
      getById s' r.id = .ok r ∧
      r.name = n ∧ r.description = d ∧ r.content = f.content ∧
      r.originalName = f.originalname ∧ r.fileSize = byteLength f.content := by
  have hv := validateUpload_ok f htype hsize
  have hcreate : createSvg s (some n) (some d) (some f) =
      .ok ({ id := s.nextId, name := n, description := d, content := f.content,
             fileSize := f.size, originalName := f.originalname },
           { records := s.records ++
               [{ id := s.nextId, name := n, description := d, content := f.content,
                  fileSize := f.size, originalName := f.originalname }],
             nextId := s.nextId + 1 }) := by
    simp [createSvg, hv, hn]
  refine ⟨_, _, hcreate, ?_, rfl, rfl, rfl, rfl, hbytes⟩
  have h1 : s.records.find? (fun rec => rec.id == s.nextId) = none :=
    List.find?_eq_none.mpr (fun x hx => by
      simp only [beq_iff_eq]
      exact Nat.ne_of_lt (hwf x hx))
  simp [getById, List.find?_append, h1]

/-- Witness for C1: creating "My Icon" with a 6-byte SVG file in the empty
store and reading it back. -/
theorem create_then_getById_witness :
    (Store.WF { records := [], nextId := 0 } ∧ ("My Icon" : String) ≠ "" ∧
      isSvgType { mimetype := "image/svg+xml", originalname := "icon.svg"
                  size := 6, content := "<svg/>" } = true ∧
      (6 : Nat) ≤ maxFileSize ∧ (6 : Nat) = byteLength "<svg/>") ∧
    ∃ (r : SvgRecord) (s' : Store),
      createSvg { records := [], nextId := 0 } (some "My Icon")
          (some "A beautiful icon")
          (some { mimetype := "image/svg+xml", originalname := "icon.svg"
                  size := 6, content := "<svg/>" }) = .ok (r, s') ∧
      getById s' r.id = .ok r ∧
      r.name = "My Icon" ∧ r.description = "A beautiful icon" ∧
      r.content = "<svg/>" ∧ r.originalName = "icon.svg" ∧
      r.fileSize = byteLength "<svg/>" :=
  ⟨⟨fun r hr => absurd hr (List.not_mem_nil r), by decide, by decide,
    by decide, by decide⟩,
   create_then_getById { records := [], nextId := 0 }
     (fun r hr => absurd hr (List.not_mem_nil r)) "My Icon" "A beautiful icon"
     { mimetype := "image/svg+xml", originalname := "icon.svg"
       size := 6, content := "<svg/>" }
     (by decide) (by decide) (by decide) (by decide)⟩

/-- C2: a candidate file whose declared MIME type is not the SVG image type
and whose filename does not end in .svg makes create fail with
InvalidFileTypeError, and no record is persisted. -/
theorem invalid_type_create_fails (s : Store) (name description : Option String)
    (f : UploadFile) (hmime : f.mimetype ≠ "image/svg+xml")
    (hext : trailsWith ".svg".toList f.originalname.toList = false) :
    createSvg s name description (some f) = .error .InvalidFileTypeError ∧
    ∀ (r : SvgRecord) (s' : Store),
      createSvg s name description (some f) ≠ .ok (r, s') := by
  have htype : isSvgType f = false := by
    simp only [isSvgType, Bool.or_eq_false_iff]
    exact ⟨by simp [beq_eq_false_iff_ne, hmime], hext⟩
  have hv : validateUpload f = .error .InvalidFileTypeError := by
    simp [validateUpload, htype]
  refine ⟨by simp [createSvg, hv], ?_⟩
  intro r s' h
  simp [createSvg, hv] at h

/-- Witness for C2: a PNG-typed upload named payload.png is rejected with
InvalidFileTypeError. -/
theorem invalid_type_create_fails_witness :
    (("image/png" : String) ≠ "image/svg+xml" ∧
      trailsWith ".svg".toList "payload.png".toList = false) ∧
    createSvg { records := [], nextId := 0 } (some "Sneaky") (some "not svg")
        (some { mimetype := "image/png", originalname := "payload.png"
                size := 9, content := "not-svg!!" })
      = .error .InvalidFileTypeError :=
  ⟨⟨by decide, by decide⟩,
   (invalid_type_create_fails { records := [], nextId := 0 } (some "Sneaky")
     (some "not svg")
     { mimetype := "image/png", originalname := "payload.png"
       size := 9, content := "not-svg!!" }
     (by decide) (by decide)).1⟩

/-- Counterexample to C3 as stated: a file over 5 MiB whose declared type is
not SVG fails with InvalidFileTypeError, not FileTooLargeError — the type gate
runs before the size gate, so the size error is not reached for every declared
type. -/
theorem oversize_nonsvg_counterexample :
    maxFileSize < ({ mimetype := "text/plain", originalname := "big.txt"
                     size := 5242881, content := "x" } : UploadFile).size ∧
    createSvg { records := [], nextId := 0 } (some "Big") (some "too big")
        (some { mimetype := "text/plain", originalname := "big.txt"
                size := 5242881, content := "x" })
      = .error .InvalidFileTypeError ∧
    createSvg { records := [], nextId := 0 } (some "Big") (some "too big")
        (some { mimetype := "text/plain", originalname := "big.txt"
                size := 5242881, content := "x" })
      ≠ .error .FileTooLargeError := by
  refine ⟨by decide, rfl, ?_⟩
  intro h
  rw [show createSvg { records := [], nextId := 0 } (some "Big") (some "too big")
        (some { mimetype := "text/plain", originalname := "big.txt"
                size := 5242881, content := "x" })
      = .error .InvalidFileTypeError from rfl] at h
  simp at h

/-- C3 amended: a file over 5 MiB that passes the SVG type gate makes create
fail with FileTooLargeError. -/
theorem oversize_svg_create_fails (s : Store) (name description : Option String)
    (f : UploadFile) (htype : isSvgType f = true)
    (hsize : maxFileSize < f.size) :
    createSvg s name description (some f) = .error .FileTooLargeError := by
  have hv : validateUpload f = .error .FileTooLargeError := by
    simp [validateUpload, htype, hsize]
  simp [createSvg, hv]

/-- Witness for the amended C3: a 5 MiB + 1 byte SVG-typed upload is rejected
with FileTooLargeError. -/
theorem oversize_svg_create_fails_witness :
    (isSvgType { mimetype := "image/svg+xml", originalname := "big.svg"
                 size := 5242881, content := "x" } = true ∧
      maxFileSize < 5242881) ∧
    createSvg { records := [], nextId := 0 } (some "Big") (some "too big")
        (some { mimetype := "image/svg+xml", originalname := "big.svg"
                size := 5242881, content := "x" })
      = .error .FileTooLargeError :=
  ⟨⟨by decide, by decide⟩,
   oversize_svg_create_fails { records := [], nextId := 0 } (some "Big")
     (some "too big")
     { mimetype := "image/svg+xml", originalname := "big.svg"
       size := 5242881, content := "x" }
     (by decide) (by decide)⟩

/-- C4: search with a missing or empty query fails with ValidationError, the
containment test means a (lowercased) contiguous occurrence, and for a
non-empty query the result holds exactly the records whose name or description
contains the query case-insensitively. -/
theorem search_semantics :
    (∀ s : Store, searchSvgs s none = .error .ValidationError) ∧
    (∀ s : Store, searchSvgs s (some "") = .error .ValidationError) ∧
    (∀ hay q : String, containsCI hay q = true ↔
      ∃ p t, hay.toList.map lowerChar = p ++ q.toList.map lowerChar ++ t) ∧
    (∀ (s : Store) (q : String), q ≠ "" →
      ∃ res, searchSvgs s (some q) = .ok res ∧
        ∀ r : SvgRecord, r ∈ res ↔ r ∈ s.records ∧
          (containsCI r.name q = true ∨ containsCI r.description q = true)) := by
  refine ⟨fun s => rfl, fun s => rfl, ?_, ?_⟩
  · intro hay q
    exact hasSub_iff _ _
  · intro s q hq
    refine ⟨s.records.filter
        (fun r => containsCI r.name q || containsCI r.description q), ?_, ?_⟩
    · simp [searchSvgs, hq]
    · intro r
      simp [List.mem_filter]

/-- Witness for C4: searching "icon" in the two-record sample store. -/
theorem search_semantics_witness :
    ("icon" : String) ≠ "" ∧
    ∃ res, searchSvgs sampleStore (some "icon") = .ok res ∧
      ∀ r : SvgRecord, r ∈ res ↔
        r ∈ sampleStore.records ∧
          (containsCI r.name "icon" = true ∨ containsCI r.description "icon" = true) :=
  ⟨by decide, search_semantics.2.2.2 sampleStore "icon" (by decide)⟩

/-- C5: if the initial connect fails during startup, the process exits with
code 1 and never starts serving; the listener starts only when the connect
succeeded. -/
theorem startup_requires_connect :
    (∀ msg : String, startServer (.error msg) = .exited 1) ∧
    (∀ c : Except String Unit, startServer c = .serving → c = .ok ()) := by
  constructor
  · intro msg
    rfl
  · intro c h
    cases c with
    | ok u => cases u; rfl
    | error msg => exact absurd h (by simp [startServer])

/-- Witness for C5 at concrete inputs: a failed connect exits with code 1, and
a serving outcome forces a successful connect. -/
theorem startup_requires_connect_witness :
    startServer (.error "connection refused") = .exited 1 ∧
    (Except.ok () : Except String Unit) = .ok () :=
  ⟨startup_requires_connect.1 "connection refused",
   startup_requires_connect.2 (.ok ()) rfl⟩

/-- C6: outside development, every error reaching the 500 branch of the
error-handling middleware gets the one fixed body, independent of the internal
error; the internal message is echoed only under NODE_ENV=development. -/
theorem error_handler_no_leak :
    (∀ (e : JsError) (env : Option String), env ≠ some "development" →
      (errorHandler e env).status = 500 →
      errorHandler e env =
        { status := 500, success := false, message := "Internal server error"
          error := some "Something went wrong" }) ∧
    (∀ e : JsError, (errorHandler e (some "development")).status = 500 →
      (errorHandler e (some "development")).error = some e.message) := by
  constructor
  · intro e env henv h500
    by_cases hc : e.code = some "LIMIT_FILE_SIZE"
    · simp [errorHandler, hc] at h500
    · by_cases hm : e.message = "Only SVG files are allowed"
      · simp [errorHandler, hc, hm] at h500
      · simp [errorHandler, hc, hm, henv]
  · intro e h500
    by_cases hc : e.code = some "LIMIT_FILE_SIZE"
    · simp [errorHandler, hc] at h500
    · by_cases hm : e.message = "Only SVG files are allowed"
      · simp [errorHandler, hc, hm] at h500
      · simp [errorHandler, hc, hm]

/-- Witness for C6: a concrete internal error in production gets the fixed
body, and the same error in development has its message echoed. -/
theorem error_handler_no_leak_witness :
    (some "production" ≠ some "development" ∧
      errorHandler { code := none, message := "ECONNRESET at pool.js:42" }
          (some "production") =
        { status := 500, success := false, message := "Internal server error"
          error := some "Something went wrong" }) ∧
    (errorHandler { code := none, message := "ECONNRESET at pool.js:42" }
        (some "development")).error = some "ECONNRESET at pool.js:42" :=
  ⟨⟨by decide,
    error_handler_no_leak.1 { code := none, message := "ECONNRESET at pool.js:42" }
      (some "production") (by decide) rfl⟩,
   error_handler_no_leak.2 { code := none, message := "ECONNRESET at pool.js:42" } rfl⟩

/-- C7: a request that has not completed within the 30-second bound is
answered by the timeout callback with status 408 and body success=false,
message "Request timeout". -/
theorem request_timeout_answer :
    requestTimeoutMs = 30 * 1000 ∧
    ∀ normal : SimpleResponse, handleWithTimeout false normal =
      { status := 408, success := false, message := "Request timeout" } := by
  exact ⟨rfl, fun _ => rfl⟩

/-- C8: the health endpoint reports success and database "connected" exactly
when obtaining the database handle succeeds, and on failure reports
success=false, database "disconnected" and the failure message. -/
theorem health_reports_connection :
    (healthHandler (.ok ()) =
      { success := true, message := "SVG Holder API is running"
        database := "connected", error := none }) ∧
    (∀ msg : String, healthHandler (.error msg) =
      { success := false
        message := "SVG Holder API is running but database is disconnected"
        database := "disconnected", error := some msg }) ∧
    (∀ db : Except String Unit,
      ((healthHandler db).success = true ∧ (healthHandler db).database = "connected")
        ↔ db = .ok ()) := by
  refine ⟨rfl, fun _ => rfl, ?_⟩
  intro db
  cases db with
  | ok u => cases u; simp [healthHandler]
  | error msg => simp [healthHandler]

/-- C9: on a shutdown signal the close operation is invoked and the process
exits with code 0, whatever the driver-level outcome of closing was. -/
theorem shutdown_always_exits_zero (driverOutcome : Except String Unit) :
    (shutdownHandler driverOutcome).closeInvoked = true ∧
    (shutdownHandler driverOutcome).exitCode = some 0 := by
  cases driverOutcome <;> simp [shutdownHandler, closeDatabaseConnection]

/-- Counterexample to C10 as stated: an empty-string Origin header is outside
the three-element allowlist, yet the truthiness guard `if (!origin)` allows it
through the CORS gate instead of rejecting it. -/
theorem cors_empty_origin_counterexample :
    ("" : String) ∉ allowedOrigins ∧
    corsOrigin (some "") = CorsDecision.allow ∧
    corsOrigin (some "") ≠ CorsDecision.block := by
  refine ⟨by decide, rfl, ?_⟩
  intro h
  rw [show corsOrigin (some "") = CorsDecision.allow from rfl] at h
  simp at h

/-- C10 amended: requests with no Origin header or an empty-string Origin
header pass the CORS gate (both are falsy under the code's `if (!origin)`
guard); an origin in the three-element allowlist is allowed; every other
non-empty origin is blocked by the cors callback before a route handler
runs. -/
theorem cors_allowlist_truthy :
    corsOrigin none = CorsDecision.allow ∧
    corsOrigin (some "") = CorsDecision.allow ∧
    (∀ o : String, o ≠ "" → o ∉ allowedOrigins →
      corsOrigin (some o) = CorsDecision.block) ∧
    (∀ o : String, o ∈ allowedOrigins → corsOrigin (some o) = CorsDecision.allow) := by
  refine ⟨rfl, rfl, ?_, ?_⟩
  · intro o ho h
    simp [corsOrigin, ho, h]
  · intro o h
    have ho : o ≠ "" := by
      intro he
      rw [he] at h
      exact absurd h (by decide)
    simp [corsOrigin, ho, h]

/-- Witness for the amended C10: a concrete foreign origin is blocked, an
allowlisted origin is allowed, and the absent origin is allowed. -/
theorem cors_allowlist_truthy_witness :
    (("https://evil.example.com" : String) ≠ "" ∧
      "https://evil.example.com" ∉ allowedOrigins ∧
      corsOrigin (some "https://evil.example.com") = CorsDecision.block) ∧
    ("http://localhost:3000" ∈ allowedOrigins ∧
      corsOrigin (some "http://localhost:3000") = CorsDecision.allow) ∧
    corsOrigin none = CorsDecision.allow :=
  ⟨⟨by decide, by decide,
    cors_allowlist_truthy.2.2.1 "https://evil.example.com" (by decide) (by decide)⟩,
   ⟨by decide,
    cors_allowlist_truthy.2.2.2 "http://localhost:3000" (by decide)⟩,
   cors_allowlist_truthy.1⟩

end SvgHolder
